import Mathlib

/-!
# MediTrack pharmacy-management workflows: a shallow embedding

This file embeds the data-access/workflow layer of `main14.py` (the single
source file of the MediTrack pharmacy management system) and proves the
spec's testable properties about it.

Modelling conventions:
* Each SQLite table is a `List` of rows inside a `DB` record; autoincrement
  row ids are explicit `next…Id` counters.
* The single shared connection is a `Conn`: a `committed` snapshot and the
  `pending` state of the open transaction.  Every cursor statement reads and
  writes `pending` (a connection sees its own uncommitted writes);
  `conn.commit()` copies `pending` into `committed`.  The source never rolls
  back, and neither does the model.
* `REAL` columns (drug prices, payment amounts) are modelled as `ℚ`;
  unbounded Python integers as `Int`/`Nat`.
* The `st.cache_data` accessors are modelled by the trace of explicit
  `.clear()` calls a workflow performs: each workflow returns the list of
  `CacheKey`s it cleared, in source order.
* Store failures (caught by the source's `try/except` blocks) are injected
  through a `Faults` record saying which `INSERT` statement raises; the
  exception texts of injected faults are abbreviated, the source's own
  result messages are verbatim.
-/

namespace MediTrack

/-- A row of the `Drugs` table (the columns the workflows touch:
`D_id`, `D_Name`, `D_Price`, `stock_no`). -/
structure Drug where
  id : Nat
  name : String
  price : ℚ
  stock_no : Int
deriving DecidableEq

/-- A row of the `Customers` table. -/
structure Customer where
  id : Nat
  name : String
  password : String
  email : String
  state : String
  number : String
deriving DecidableEq

/-- A row of the `Orders` table (`O_id`, `O_Name`, `O_Items`, `O_Qty`, `O_Date`). -/
structure Order where
  id : Nat
  o_name : String
  items : String
  qty : Int
  date : String
deriving DecidableEq

/-- A row of the `Suppliers` table. -/
structure Supplier where
  id : Nat
  name : String
  email : String
  number : String
  address : String
  password : String
deriving DecidableEq

/-- A row of the `RetailPharmacies` table. -/
structure RetailPharmacy where
  id : Nat
  name : String
  email : String
  password : String
  address : String
  phone : String
  billing : Option String
  taxID : Option String
  supplierID : Nat
deriving DecidableEq

/-- A row of the `RestockOrders` table; `PaymentStatus` starts out NULL. -/
structure RestockOrder where
  restockID : Nat
  supplierID : Nat
  drugID : Nat
  quantity : Int
  status : String
  paymentStatus : Option String
deriving DecidableEq

/-- A row of the `Tickets` table. -/
structure Ticket where
  ticketID : Nat
  restockID : Nat
  supplierID : Nat
  status : String
deriving DecidableEq

/-- A row of the `Payments` table; `PaymentMethodID` is NULL-able because
`add_new_order` inserts `payment_methods.get(payment_method)`, which is
`None` for an unknown method name. -/
structure Payment where
  paymentID : Nat
  pharmacyID : Nat
  supplierID : Nat
  amount : ℚ
  methodID : Option Nat
  status : String
  notes : Option String
  txRef : String
deriving DecidableEq

/-- A row of the `PaymentMethods` table. -/
structure PaymentMethod where
  id : Nat
  methodName : String
  description : String
deriving DecidableEq

/-- A row of the `PharmacyPayments` table. -/
structure PharmacyPayment where
  pharmacyID : Nat
  methodID : Nat
  accountDetails : String
  isDefault : Bool
deriving DecidableEq

/-- A row of the `SupplierNotifications` table (the inserted columns). -/
structure SupplierNotification where
  id : Nat
  supplierID : Nat
  title : String
  message : String
  relatedEntityType : String
  relatedEntityID : Nat
deriving DecidableEq

/-- The whole store: one list per table plus the autoincrement counters. -/
structure DB where
  drugs : List Drug
  customers : List Customer
  orders : List Order
  suppliers : List Supplier
  pharmacies : List RetailPharmacy
  restockOrders : List RestockOrder
  tickets : List Ticket
  payments : List Payment
  paymentMethods : List PaymentMethod
  pharmacyPayments : List PharmacyPayment
  notifications : List SupplierNotification
  nextOrderId : Nat
  nextRestockId : Nat
  nextTicketId : Nat
  nextPaymentId : Nat
  nextMethodId : Nat
  nextCustomerId : Nat
  nextSupplierId : Nat
  nextPharmacyId : Nat
  nextNotificationId : Nat
deriving DecidableEq

/-- The store with every table empty and all counters at 1. -/
def DB.empty : DB :=
  ⟨[], [], [], [], [], [], [], [], [], [], [], 1, 1, 1, 1, 1, 1, 1, 1, 1⟩

/-- The single SQLite connection: the committed snapshot and the pending
state of the open transaction.  Statements act on `pending`. -/
structure Conn where
  committed : DB
  pending : DB
deriving DecidableEq

/-- `conn.commit()`: the pending state becomes the committed one. -/
def Conn.commit (s : Conn) : Conn := ⟨s.pending, s.pending⟩

/-- A quiescent connection over `db`: nothing uncommitted. -/
def Conn.quiet (db : DB) : Conn := ⟨db, db⟩

/-- The memoized read accessors a workflow can `.clear()`. -/
inductive CacheKey where
  | drugsC
  | customersC
  | ordersC
  | ticketsC
  | restockC
  | suppliersC
  | paymentsC
  | notificationsC
  | lowStockC
  | methodsC
deriving DecidableEq

/-- Which `INSERT` statements raise a store exception in this run. -/
structure Faults where
  orderInsertFails : Bool
  paymentInsertFails : Bool
  restockInsertFails : Bool
  ticketInsertFails : Bool
deriving DecidableEq

/-- A fault-free run: no `INSERT` raises. -/
def Faults.none : Faults := ⟨false, false, false, false⟩

/-- The result of a workflow call: the Python return value, the connection
afterwards, and the trace of cache `.clear()` calls it made. -/
structure OpResult (α : Type) where
  res : α
  conn : Conn
  clears : List CacheKey
deriving DecidableEq

/-- `initialize_payment_methods` (main14.py:21-32): if `PaymentMethods` is
empty, insert the four fixed methods and commit; otherwise do nothing. -/
def initialize_payment_methods (s : Conn) : Conn :=
  if s.pending.paymentMethods.length = 0 then
    let db : DB := s.pending
    let i : Nat := db.nextMethodId
    let db1 : DB := { db with
      paymentMethods := db.paymentMethods ++
        [⟨i, "COD", "Cash on Delivery"⟩,
         ⟨i + 1, "UPI", "Unified Payments Interface"⟩,
         ⟨i + 2, "Net Banking", "Internet Banking"⟩,
         ⟨i + 3, "Studd", "Student Discount Payment (Placeholder)"⟩],
      nextMethodId := i + 4 }
    Conn.commit { s with pending := db1 }
  else s

/-- `fetch_payment_methods` (main14.py:37-42): the dict
`MethodName ↦ PaymentMethodID`; a later row with the same name overwrites an
earlier one, so the lookup finds the last match. -/
def fetch_payment_methods (db : DB) (nm : String) : Option Nat :=
  (db.paymentMethods.reverse.find? (fun m => m.methodName == nm)).map (·.id)

/-- `add_pharmacy_payment` (main14.py:45-55): insert a `PharmacyPayments`
row and commit; no cache is cleared. -/
def add_pharmacy_payment (s : Conn) (pharmacy_id payment_method_id : Nat)
    (account_details : String) (is_default : Bool) :
    OpResult (Bool × String) :=
  let db : DB := s.pending
  let db1 : DB := { db with
    pharmacyPayments := db.pharmacyPayments ++
      [⟨pharmacy_id, payment_method_id, account_details, is_default⟩] }
  ⟨(true, "Payment method added successfully!"),
    Conn.commit { s with pending := db1 }, []⟩

/-- `create_restock_payment` (main14.py:58-79): insert a `Payments` row with
transaction reference `Restock-<id>`, set the restock order's
`PaymentStatus`, commit, insert a `SupplierNotifications` row, commit.  No
cache is cleared. -/
def create_restock_payment (s : Conn) (pharmacy_id supplier_id : Nat)
    (amount : ℚ) (payment_method_id : Option Nat) (restock_id : Nat)
    (status : String) (notes : Option String) :
    OpResult (Bool × String × Option Nat) :=
  let db : DB := s.pending
  let payment_id : Nat := db.nextPaymentId
  let db1 : DB := { db with
    payments := db.payments ++
      [⟨payment_id, pharmacy_id, supplier_id, amount, payment_method_id,
        status, notes, "Restock-" ++ toString restock_id⟩],
    nextPaymentId := payment_id + 1 }
  let db2 : DB := { db1 with
    restockOrders := db1.restockOrders.map (fun r =>
      if r.restockID = restock_id then { r with paymentStatus := some status } else r) }
  let s1 : Conn := Conn.commit { s with pending := db2 }
  let db3 : DB := { s1.pending with
    notifications := s1.pending.notifications ++
      [⟨s1.pending.nextNotificationId, supplier_id, "New Restock Payment",
        "Payment of $" ++ toString amount ++ " initiated for Restock ID " ++
          toString restock_id,
        "Payment", payment_id⟩],
    nextNotificationId := s1.pending.nextNotificationId + 1 }
  let s2 : Conn := Conn.commit { s1 with pending := db3 }
  ⟨(true, "Payment created successfully!", some payment_id), s2, []⟩

/-- `check_low_stock` (main14.py:163-169): `SELECT * FROM Drugs WHERE
stock_no <= 100`. -/
def check_low_stock (db : DB) : List Drug :=
  db.drugs.filter (fun d => d.stock_no ≤ 100)

/-- `create_restock_order` (main14.py:172-186): insert a Pending
`RestockOrders` row, then an Open `Tickets` row keyed by its id, then one
`conn.commit()`; on success clear the tickets/restock/low-stock caches and
return the new restock id and the drug id.  A raise inside either `INSERT`
is caught and reported; nothing is committed then (and nothing rolled
back). -/
def create_restock_order (s : Conn) (f : Faults)
    (supplier_id drug_id : Nat) (quantity : Int) (pharmacy_id : Nat) :
    OpResult (Bool × String × Option Nat × Option Nat) :=
  if f.restockInsertFails then
    ⟨(false, "Error creating restock order: RestockOrders insert raised",
      none, none), s, []⟩
  else
    let db : DB := s.pending
    let restock_id : Nat := db.nextRestockId
    let db1 : DB := { db with
      restockOrders := db.restockOrders ++
        [⟨restock_id, supplier_id, drug_id, quantity, "Pending", none⟩],
      nextRestockId := restock_id + 1 }
    if f.ticketInsertFails then
      ⟨(false, "Error creating restock order: Tickets insert raised",
        none, none), { s with pending := db1 }, []⟩
    else
      let db2 : DB := { db1 with
        tickets := db1.tickets ++
          [⟨db1.nextTicketId, restock_id, supplier_id, "Open"⟩],
        nextTicketId := db1.nextTicketId + 1 }
      let s1 : Conn := Conn.commit { s with pending := db2 }
      ⟨(true, "Restock order and ticket created successfully!",
        some restock_id, some drug_id), s1,
       [CacheKey.ticketsC, CacheKey.restockC, CacheKey.lowStockC]⟩

/-- `update_drug_stock` (main14.py:189-202): set the drug's `stock_no` to
200, mark every `RestockOrders` row of that drug Delivered/Completed, close
every `Tickets` row whose `RestockID` belongs to such a restock order (the
subquery runs against the already-updated `RestockOrders`), commit, and
clear the drugs/tickets/restock/low-stock caches. -/
def update_drug_stock (s : Conn) (drug_id : Nat) :
    OpResult (Bool × String) :=
  let db : DB := s.pending
  let drugs1 : List Drug := db.drugs.map (fun d =>
    if d.id = drug_id then { d with stock_no := 200 } else d)
  let ros1 : List RestockOrder := db.restockOrders.map (fun r =>
    if r.drugID = drug_id then
      { r with status := "Delivered", paymentStatus := some "Completed" }
    else r)
  let tickets1 : List Ticket := db.tickets.map (fun t =>
    if ros1.any (fun r => r.drugID == drug_id && r.restockID == t.restockID) then
      { t with status := "Closed" }
    else t)
  let db1 : DB := { db with drugs := drugs1, restockOrders := ros1, tickets := tickets1 }
  ⟨(true, "Stock updated to 200 and restock status updated!"),
    Conn.commit { s with pending := db1 },
    [CacheKey.drugsC, CacheKey.ticketsC, CacheKey.restockC, CacheKey.lowStockC]⟩

/-- `update_stock_after_order` (main14.py:270-285): look the drug up by
name (`fetchone`: first match), fail if absent or if `stock_no < quantity`,
otherwise decrement the stock of every row with that `D_id`, commit, and
clear the drugs cache. -/
def update_stock_after_order (s : Conn) (drug_name : String) (quantity : Int) :
    OpResult (Bool × String) :=
  match s.pending.drugs.find? (fun d => d.name == drug_name) with
  | Option.none => ⟨(false, "Drug not found."), s, []⟩
  | some drug =>
    if drug.stock_no < quantity then
      ⟨(false, "Not enough stock available. Current stock: " ++
          toString drug.stock_no), s, []⟩
    else
      let db1 : DB := { s.pending with
        drugs := s.pending.drugs.map (fun d =>
          if d.id = drug.id then { d with stock_no := d.stock_no - quantity } else d) }
      ⟨(true, "Stock updated successfully."),
        Conn.commit { s with pending := db1 }, [CacheKey.drugsC]⟩

/-- `add_new_customer` (main14.py:288-299): insert the row, commit, clear
the customers cache; a unique-email violation raises `IntegrityError` and
yields the duplicate-email failure with nothing inserted.

The email-uniqueness constraint itself is modelled from the spec: the
schema DDL is not part of the source file, and spec section 3 states
"email uniqueness enforced by store constraint" for Customers. -/
def add_new_customer (s : Conn) (name password email state number : String) :
    OpResult (Bool × String) :=
  if s.pending.customers.any (fun cst => cst.email == email) then
    ⟨(false, "Error: Email already exists."), s, []⟩
  else
    let db : DB := s.pending
    let db1 : DB := { db with
      customers := db.customers ++
        [⟨db.nextCustomerId, name, password, email, state, number⟩],
      nextCustomerId := db.nextCustomerId + 1 }
    ⟨(true, "Customer added successfully!"),
      Conn.commit { s with pending := db1 }, [CacheKey.customersC]⟩

/-- Modelled from the spec: `add_new_order` (main14.py:321) calls
`create_payment(pharmacy_id, 1, amount, payment_method_id, "Pending",
f"Order ID: ...")`, but no function `create_payment` is defined anywhere in
the repository's source; only this caller exists.  Following spec section
4.1 step (f) — "create a Pending payment tied to the order via a synthetic
reference" — it inserts one `Payments` row with the given pharmacy id,
supplier id, amount, payment-method id and status, the reference as the
transaction reference, and returns success with the new payment id; a store
failure is caught and reported as a failure result with nothing inserted. -/
def create_payment (s : Conn) (f : Faults) (pharmacy_id supplier_id : Nat)
    (amount : ℚ) (payment_method_id : Option Nat) (status reference : String) :
    (Bool × String × Option Nat) × Conn :=
  if f.paymentInsertFails then
    ((false, "Error creating payment: Payments insert raised", Option.none), s)
  else
    let db : DB := s.pending
    let pid : Nat := db.nextPaymentId
    let db1 : DB := { db with
      payments := db.payments ++
        [⟨pid, pharmacy_id, supplier_id, amount, payment_method_id, status,
          Option.none, reference⟩],
      nextPaymentId := pid + 1 }
    ((true, "Payment created successfully!", some pid), { s with pending := db1 })

/-- `add_new_order` (main14.py:302-331): run `update_stock_after_order`
(which commits the decrement), insert the `Orders` row, look the drug's
price up by name, compute `amount = price * quantity`, call
`create_payment` with supplier id 1 and status Pending; on payment success
commit and clear the orders and payments caches, otherwise return the
payment failure (the uncommitted order row stays pending, nothing is rolled
back).  `current_date` stands for `datetime.now()`. -/
def add_new_order (s : Conn) (f : Faults) (pharmacy_id : Nat)
    (name items : String) (quantity : Int) (payment_method current_date : String) :
    OpResult (Bool × String) :=
  let r1 : OpResult (Bool × String) := update_stock_after_order s items quantity
  if !r1.res.1 then
    ⟨(false, r1.res.2), r1.conn, r1.clears⟩
  else if f.orderInsertFails then
    ⟨(false, "Error: Orders insert raised"), r1.conn, r1.clears⟩
  else
    let db1 : DB := r1.conn.pending
    let order_id : Nat := db1.nextOrderId
    let db2 : DB := { db1 with
      orders := db1.orders ++ [⟨order_id, name, items, quantity, current_date⟩],
      nextOrderId := order_id + 1 }
    let s2 : Conn := { r1.conn with pending := db2 }
    match db2.drugs.find? (fun d => d.name == items) with
    | Option.none => ⟨(false, "Error: drug price lookup raised"), s2, r1.clears⟩
    | some drug =>
      let amount : ℚ := drug.price * (quantity : ℚ)
      let payment_method_id : Option Nat := fetch_payment_methods db2 payment_method
      let r2 : (Bool × String × Option Nat) × Conn := create_payment s2 f pharmacy_id 1 amount payment_method_id
        "Pending" ("Order ID: " ++ toString order_id)
      if r2.1.1 then
        ⟨(true, "Order added successfully with payment!"), Conn.commit r2.2,
          r1.clears ++ [CacheKey.ordersC, CacheKey.paymentsC]⟩
      else
        ⟨(false, r2.1.2.1), r2.2, r1.clears⟩

/-- `add_new_retail_pharmacist` (main14.py:369-386): insert the row
(duplicate email raises `IntegrityError`), commit, then add the default COD
pharmacy payment (`payment_methods["COD"]` raises `KeyError` when absent,
caught by the generic handler — after the commit).  No cache is cleared.

The email-uniqueness constraint is modelled from the spec (the schema DDL
is not in the source; spec section 3 marks the pharmacy email unique). -/
def add_new_retail_pharmacist (s : Conn)
    (name email password address phone_number : String)
    (billing_address tax_id : Option String) :
    OpResult (Bool × String × Option Nat) :=
  if s.pending.pharmacies.any (fun p => p.email == email) then
    ⟨(false, "Error: Email already exists.", Option.none), s, []⟩
  else
    let db : DB := s.pending
    let pharmacy_id : Nat := db.nextPharmacyId
    let db1 : DB := { db with
      pharmacies := db.pharmacies ++
        [⟨pharmacy_id, name, email, password, address, phone_number,
          billing_address, tax_id, 1⟩],
      nextPharmacyId := pharmacy_id + 1 }
    let s1 : Conn := Conn.commit { s with pending := db1 }
    match fetch_payment_methods s1.pending "COD" with
    | Option.none => ⟨(false, "Error: missing COD payment method", Option.none), s1, []⟩
    | some mid =>
      let r : OpResult (Bool × String) := add_pharmacy_payment s1 pharmacy_id mid "Cash on delivery" true
      ⟨(true, "Retail Pharmacist account created successfully!", some pharmacy_id),
        r.conn, r.clears⟩

/-- `add_new_supplier` (main14.py:389-403): insert the row (duplicate email
raises `IntegrityError`), commit, clear the suppliers cache.

The email-uniqueness constraint is modelled from the spec (the schema DDL
is not in the source; spec section 3 marks the supplier email unique). -/
def add_new_supplier (s : Conn)
    (name email contact_number address password : String) :
    OpResult (Bool × String × Option Nat) :=
  if s.pending.suppliers.any (fun sup => sup.email == email) then
    ⟨(false, "Error: Email already exists.", Option.none), s, []⟩
  else
    let db : DB := s.pending
    let supplier_id : Nat := db.nextSupplierId
    let db1 : DB := { db with
      suppliers := db.suppliers ++
        [⟨supplier_id, name, email, contact_number, address, password⟩],
      nextSupplierId := supplier_id + 1 }
    ⟨(true, "Supplier account created successfully!", some supplier_id),
      Conn.commit { s with pending := db1 }, [CacheKey.suppliersC]⟩

/-- `restock_ticket_form` (main14.py:562-567), the payment step after
`create_restock_order` succeeds: look the drug's price up by id, compute
`amount = price * quantity`, and call `create_restock_payment` with status
Pending. -/
def restock_ticket_payment (s : Conn) (pharmacy_id supplier_id drug_id : Nat)
    (quantity : Int) (payment_method_id : Option Nat) (restock_id : Nat)
    (drug_name : String) :
    OpResult (Bool × String × Option Nat) :=
  match s.pending.drugs.find? (fun d => d.id == drug_id) with
  | Option.none => ⟨(false, "Error: drug price lookup raised", Option.none), s, []⟩
  | some d =>
    let amount : ℚ := d.price * (quantity : ℚ)
    create_restock_payment s pharmacy_id supplier_id amount payment_method_id
      restock_id "Pending" (some ("Restock for " ++ drug_name))

/-! ## Concrete stores for witnesses and counterexamples -/

/-- A sample store: the drug of the spec's worked example (price 10.0,
stock 150), one supplier, one pharmacy, one COD payment method, and one
Pending restock order with its Open ticket. -/
def sampleDB : DB :=
  { DB.empty with
    drugs := [⟨1, "Paracetamol", 10, 150⟩],
    suppliers := [⟨1, "Acme Pharma", "acme@sup.com", "12345", "Street 1", "pw"⟩],
    pharmacies := [⟨1, "City Pharmacy", "city@ph.com", "pw", "Street 2", "999",
      Option.none, Option.none, 1⟩],
    paymentMethods := [⟨1, "COD", "Cash on Delivery"⟩],
    restockOrders := [⟨1, 1, 1, 5, "Pending", Option.none⟩],
    tickets := [⟨1, 1, 1, "Open"⟩],
    customers := [⟨1, "Asha", "pw", "asha@cust.com", "TN", "555"⟩],
    nextRestockId := 2, nextTicketId := 2, nextMethodId := 2,
    nextSupplierId := 2, nextPharmacyId := 2, nextCustomerId := 2 }

/-- A store holding one drug exactly at the low-stock boundary. -/
def boundaryDB : DB :=
  { DB.empty with
    drugs := [⟨1, "Ibuprofen", 12, 100⟩, ⟨2, "Aspirin", 8, 101⟩] }

/-! ## C5: the low-stock predicate -/

/-- C5: `check_low_stock` flags exactly the drugs whose stock count is at
or below 100; a stored drug with stock 100 is in the result and one with
stock 101 is not. -/
theorem check_low_stock_boundary (db : DB) (d : Drug) (hd : d ∈ db.drugs) :
    (d ∈ check_low_stock db ↔ d.stock_no ≤ 100) ∧
    (d.stock_no = 100 → d ∈ check_low_stock db) ∧
    (d.stock_no = 101 → d ∉ check_low_stock db) := by
  refine ⟨?_, ?_, ?_⟩
  · simp [check_low_stock, List.mem_filter, hd]
  · intro h
    simp [check_low_stock, List.mem_filter, hd, h]
  · intro h
    simp [check_low_stock, List.mem_filter, hd, h]

/-- Witness for C5: the boundary store, at its stock-100 drug. -/
theorem check_low_stock_boundary_witness :
    ((⟨1, "Ibuprofen", 12, 100⟩ : Drug) ∈ check_low_stock boundaryDB ↔
      (⟨1, "Ibuprofen", 12, 100⟩ : Drug).stock_no ≤ 100) ∧
    ((⟨1, "Ibuprofen", 12, 100⟩ : Drug).stock_no = 100 →
      (⟨1, "Ibuprofen", 12, 100⟩ : Drug) ∈ check_low_stock boundaryDB) ∧
    ((⟨1, "Ibuprofen", 12, 100⟩ : Drug).stock_no = 101 →
      (⟨1, "Ibuprofen", 12, 100⟩ : Drug) ∉ check_low_stock boundaryDB) :=
  check_low_stock_boundary boundaryDB ⟨1, "Ibuprofen", 12, 100⟩ (by decide)

/-! ## C8: seeding the payment methods -/

/-- C8: on an empty `PaymentMethods` table, `initialize_payment_methods`
inserts exactly the 4 rows COD, UPI, Net Banking, Studd; on a non-empty
table it inserts 0 rows (the state is unchanged); hence running the seeding
twice leaves the same state as running it once. -/
theorem initialize_payment_methods_idempotent (s : Conn) :
    (s.pending.paymentMethods = [] →
      (initialize_payment_methods s).pending.paymentMethods.map
          PaymentMethod.methodName = ["COD", "UPI", "Net Banking", "Studd"] ∧
      (initialize_payment_methods s).pending.paymentMethods.length = 4) ∧
    (s.pending.paymentMethods ≠ [] → initialize_payment_methods s = s) ∧
    initialize_payment_methods (initialize_payment_methods s) =
      initialize_payment_methods s := by
  by_cases h : s.pending.paymentMethods = []
  · refine ⟨fun _ => ?_, fun h2 => absurd h h2, ?_⟩
    · simp [initialize_payment_methods, h, Conn.commit]
    · simp [initialize_payment_methods, h, Conn.commit]
  · refine ⟨fun h2 => absurd h2 h, fun _ => ?_, ?_⟩
    · simp [initialize_payment_methods, List.length_eq_zero.ne.mpr h]
    · simp [initialize_payment_methods, List.length_eq_zero.ne.mpr h]

/-! ## C9 and C2: delivery confirmation -/

/-- Marking a restock order Delivered/Completed changes neither its drug id
nor its restock id, so the ticket subquery selects the same rows whether it
runs before or after the restock update. -/
theorem restock_update_any_eq (ros : List RestockOrder) (did tid : Nat) :
    ((ros.map (fun r => if r.drugID = did then
        { r with status := "Delivered", paymentStatus := some "Completed" }
      else r)).any (fun r => r.drugID == did && r.restockID == tid)) =
      ros.any (fun r => r.drugID == did && r.restockID == tid) := by
  rw [List.any_map]
  congr 1
  funext r
  by_cases h : r.drugID = did <;> simp [h]

/-- C9: for every drug id `d`, `update_drug_stock d` sets the stock of every
`Drugs` row with id `d` to 200 (even when no restock order for `d` exists),
sets Status Delivered and PaymentStatus Completed on every `RestockOrders`
row whose DrugID is `d`, closes every ticket whose RestockID belongs to such
a restock order, leaves all other rows and all other tables unchanged, and
commits. -/
theorem update_drug_stock_frame (s : Conn) (did : Nat) :
    (update_drug_stock s did).conn.pending.drugs =
      s.pending.drugs.map (fun d =>
        if d.id = did then { d with stock_no := 200 } else d) ∧
    (update_drug_stock s did).conn.pending.restockOrders =
      s.pending.restockOrders.map (fun r =>
        if r.drugID = did then
          { r with status := "Delivered", paymentStatus := some "Completed" }
        else r) ∧
    (update_drug_stock s did).conn.pending.tickets =
      s.pending.tickets.map (fun t =>
        if s.pending.restockOrders.any
            (fun r => r.drugID == did && r.restockID == t.restockID) then
          { t with status := "Closed" }
        else t) ∧
    (update_drug_stock s did).conn.pending.orders = s.pending.orders ∧
    (update_drug_stock s did).conn.pending.customers = s.pending.customers ∧
    (update_drug_stock s did).conn.pending.suppliers = s.pending.suppliers ∧
    (update_drug_stock s did).conn.pending.payments = s.pending.payments ∧
    (update_drug_stock s did).conn.pending.paymentMethods =
      s.pending.paymentMethods ∧
    (update_drug_stock s did).conn.pending.pharmacyPayments =
      s.pending.pharmacyPayments ∧
    (update_drug_stock s did).conn.pending.notifications =
      s.pending.notifications ∧
    (update_drug_stock s did).conn.committed =
      (update_drug_stock s did).conn.pending := by
  refine ⟨rfl, rfl, ?_, rfl, rfl, rfl, rfl, rfl, rfl, rfl, rfl⟩
  show s.pending.tickets.map _ = s.pending.tickets.map _
  congr 1
  funext t
  rw [restock_update_any_eq]

/-- C2: confirming delivery of a drug that has a restock order sets that
drug's stock to 200, marks the restock order Delivered with payment status
Completed, closes every ticket referencing that restock order, and reports
success. -/
theorem update_drug_stock_delivery (s : Conn) (did : Nat)
    (d : Drug) (r : RestockOrder) (t : Ticket)
    (hd : d ∈ s.pending.drugs) (hdid : d.id = did)
    (hr : r ∈ s.pending.restockOrders) (hrd : r.drugID = did)
    (ht : t ∈ s.pending.tickets) (htr : t.restockID = r.restockID) :
    (update_drug_stock s did).res =
      (true, "Stock updated to 200 and restock status updated!") ∧
    { d with stock_no := 200 } ∈ (update_drug_stock s did).conn.committed.drugs ∧
    { r with status := "Delivered", paymentStatus := some "Completed" } ∈
      (update_drug_stock s did).conn.committed.restockOrders ∧
    { t with status := "Closed" } ∈
      (update_drug_stock s did).conn.committed.tickets := by
  refine ⟨rfl, ?_, ?_, ?_⟩
  · simp only [update_drug_stock, Conn.commit, List.mem_map]
    exact ⟨d, hd, by simp [hdid]⟩
  · simp only [update_drug_stock, Conn.commit, List.mem_map]
    exact ⟨r, hr, by simp [hrd]⟩
  · simp only [update_drug_stock, Conn.commit, List.mem_map]
    refine ⟨t, ht, ?_⟩
    have hany : (s.pending.restockOrders.map (fun x =>
        if x.drugID = did then
          { x with status := "Delivered", paymentStatus := some "Completed" }
        else x)).any
          (fun x => x.drugID == did && x.restockID == t.restockID) = true := by
      rw [restock_update_any_eq]
      exact List.any_eq_true.mpr ⟨r, hr, by simp [hrd, htr]⟩
    simp [hany]

/-- Witness for C2: the sample store's drug 1 with its Pending restock
order 1 and Open ticket 1. -/
theorem update_drug_stock_delivery_witness :
    (update_drug_stock (Conn.quiet sampleDB) 1).res =
      (true, "Stock updated to 200 and restock status updated!") ∧
    ({ (⟨1, "Paracetamol", 10, 150⟩ : Drug) with stock_no := 200 } ∈
      (update_drug_stock (Conn.quiet sampleDB) 1).conn.committed.drugs) ∧
    ({ (⟨1, 1, 1, 5, "Pending", Option.none⟩ : RestockOrder) with
        status := "Delivered", paymentStatus := some "Completed" } ∈
      (update_drug_stock (Conn.quiet sampleDB) 1).conn.committed.restockOrders) ∧
    ({ (⟨1, 1, 1, "Open"⟩ : Ticket) with status := "Closed" } ∈
      (update_drug_stock (Conn.quiet sampleDB) 1).conn.committed.tickets) :=
  update_drug_stock_delivery (Conn.quiet sampleDB) 1
    ⟨1, "Paracetamol", 10, 150⟩ ⟨1, 1, 1, 5, "Pending", Option.none⟩
    ⟨1, 1, 1, "Open"⟩ (by decide) rfl (by decide) rfl (by decide) rfl

/-! ## C6: duplicate emails -/

/-- C6: when the email already exists in the respective table,
`add_new_customer`, `add_new_supplier` and `add_new_retail_pharmacist` each
return the duplicate-email failure and leave the store unchanged. -/
theorem duplicate_email_rejected (s : Conn)
    (nm pw em st num : String) (c : Customer)
    (hc : c ∈ s.pending.customers) (hce : c.email = em)
    (sn se scn sa sp : String) (sup : Supplier)
    (hs : sup ∈ s.pending.suppliers) (hse : sup.email = se)
    (pn pe pp pa phn : String) (bill tax : Option String)
    (ph : RetailPharmacy) (hp : ph ∈ s.pending.pharmacies) (hpe : ph.email = pe) :
    (add_new_customer s nm pw em st num).res =
      (false, "Error: Email already exists.") ∧
    (add_new_customer s nm pw em st num).conn = s ∧
    (add_new_supplier s sn se scn sa sp).res =
      (false, "Error: Email already exists.", Option.none) ∧
    (add_new_supplier s sn se scn sa sp).conn = s ∧
    (add_new_retail_pharmacist s pn pe pp pa phn bill tax).res =
      (false, "Error: Email already exists.", Option.none) ∧
    (add_new_retail_pharmacist s pn pe pp pa phn bill tax).conn = s := by
  have h1 : s.pending.customers.any (fun x => x.email == em) = true :=
    List.any_eq_true.mpr ⟨c, hc, by simp [hce]⟩
  have h2 : s.pending.suppliers.any (fun x => x.email == se) = true :=
    List.any_eq_true.mpr ⟨sup, hs, by simp [hse]⟩
  have h3 : s.pending.pharmacies.any (fun x => x.email == pe) = true :=
    List.any_eq_true.mpr ⟨ph, hp, by simp [hpe]⟩
  simp [add_new_customer, add_new_supplier, add_new_retail_pharmacist, h1, h2, h3]

/-- Witness for C6: re-registering the sample store's customer, supplier
and pharmacy emails. -/
theorem duplicate_email_rejected_witness :
    (add_new_customer (Conn.quiet sampleDB) "X" "pw" "asha@cust.com" "KL" "1").res =
      (false, "Error: Email already exists.") ∧
    (add_new_customer (Conn.quiet sampleDB) "X" "pw" "asha@cust.com" "KL" "1").conn =
      Conn.quiet sampleDB ∧
    (add_new_supplier (Conn.quiet sampleDB) "Y" "acme@sup.com" "2" "a" "pw").res =
      (false, "Error: Email already exists.", Option.none) ∧
    (add_new_supplier (Conn.quiet sampleDB) "Y" "acme@sup.com" "2" "a" "pw").conn =
      Conn.quiet sampleDB ∧
    (add_new_retail_pharmacist (Conn.quiet sampleDB) "Z" "city@ph.com" "pw" "a" "3"
        Option.none Option.none).res =
      (false, "Error: Email already exists.", Option.none) ∧
    (add_new_retail_pharmacist (Conn.quiet sampleDB) "Z" "city@ph.com" "pw" "a" "3"
        Option.none Option.none).conn = Conn.quiet sampleDB :=
  duplicate_email_rejected (Conn.quiet sampleDB)
    "X" "pw" "asha@cust.com" "KL" "1" ⟨1, "Asha", "pw", "asha@cust.com", "TN", "555"⟩
    (by decide) rfl
    "Y" "acme@sup.com" "2" "a" "pw" ⟨1, "Acme Pharma", "acme@sup.com", "12345", "Street 1", "pw"⟩
    (by decide) rfl
    "Z" "city@ph.com" "pw" "a" "3" Option.none Option.none
    ⟨1, "City Pharmacy", "city@ph.com", "pw", "Street 2", "999", Option.none, Option.none, 1⟩
    (by decide) rfl

/-! ## C10: restock order + ticket under one commit point -/

/-- C10: on a quiescent connection, `create_restock_order` commits the
Pending restock row and its Open ticket together on success; when either
insert raises, it reports failure and neither row is committed. -/
theorem create_restock_order_atomic (db : DB) (f : Faults)
    (sid did : Nat) (qty : Int) (phid : Nat) :
    (f.restockInsertFails = false → f.ticketInsertFails = false →
      (create_restock_order (Conn.quiet db) f sid did qty phid).res =
        (true, "Restock order and ticket created successfully!",
          some db.nextRestockId, some did) ∧
      (create_restock_order (Conn.quiet db) f sid did qty phid).conn.committed.restockOrders =
        db.restockOrders ++ [⟨db.nextRestockId, sid, did, qty, "Pending", Option.none⟩] ∧
      (create_restock_order (Conn.quiet db) f sid did qty phid).conn.committed.tickets =
        db.tickets ++ [⟨db.nextTicketId, db.nextRestockId, sid, "Open"⟩]) ∧
    ((f.restockInsertFails = true ∨ f.ticketInsertFails = true) →
      (create_restock_order (Conn.quiet db) f sid did qty phid).res.1 = false ∧
      (create_restock_order (Conn.quiet db) f sid did qty phid).conn.committed = db) := by
  constructor
  · intro h1 h2
    refine ⟨?_, ?_, ?_⟩ <;>
      simp [create_restock_order, h1, h2, Conn.quiet, Conn.commit]
  · rintro (h | h) <;>
      cases hf1 : f.restockInsertFails <;>
        cases hf2 : f.ticketInsertFails <;>
          simp_all [create_restock_order, Conn.quiet, Conn.commit]

/-! ## C7: cache invalidation after writes (corrected) -/

/-- C7 counterexample: on the sample store, `create_restock_payment`
reports success after inserting a `Payments` row and flipping the restock
order's payment status, yet its trace of cache `.clear()` calls is empty —
in particular the cached `Payments` read is not invalidated. -/
theorem create_restock_payment_clears_nothing :
    (create_restock_payment (Conn.quiet sampleDB) 1 1 50 (some 1) 1
      "Pending" Option.none).res.1 = true ∧
    (create_restock_payment (Conn.quiet sampleDB) 1 1 50 (some 1) 1
      "Pending" Option.none).conn.committed.payments.length =
        sampleDB.payments.length + 1 ∧
    (create_restock_payment (Conn.quiet sampleDB) 1 1 50 (some 1) 1
      "Pending" Option.none).conn.committed.restockOrders =
        [⟨1, 1, 1, 5, "Pending", some "Pending"⟩] ∧
    (create_restock_payment (Conn.quiet sampleDB) 1 1 50 (some 1) 1
      "Pending" Option.none).clears = [] ∧
    CacheKey.paymentsC ∉ (create_restock_payment (Conn.quiet sampleDB) 1 1 50
      (some 1) 1 "Pending" Option.none).clears := by
  refine ⟨rfl, rfl, by decide, rfl, by decide⟩

/-- C7 amended: `update_drug_stock` clears the cached reads of every table
it mutates (drugs, tickets, restock orders, low stock) and a successful
`create_restock_order` clears the tickets/restock/low-stock caches, but
`create_restock_payment` — which inserts into Payments and
SupplierNotifications and updates RestockOrders — and `add_pharmacy_payment`
clear no cached accessor before reporting success. -/
theorem cache_invalidation_by_workflow (s : Conn) (did sid drid : Nat)
    (qty : Int) (phid pid sup2 : Nat) (amt : ℚ) (mid : Option Nat)
    (rid : Nat) (stt : String) (nts : Option String)
    (ph2 mth : Nat) (acct : String) (dflt : Bool) :
    (update_drug_stock s did).clears =
      [CacheKey.drugsC, CacheKey.ticketsC, CacheKey.restockC, CacheKey.lowStockC] ∧
    (create_restock_order s Faults.none sid drid qty phid).clears =
      [CacheKey.ticketsC, CacheKey.restockC, CacheKey.lowStockC] ∧
    (create_restock_payment s pid sup2 amt mid rid stt nts).clears = [] ∧
    (add_pharmacy_payment s ph2 mth acct dflt).clears = [] := by
  refine ⟨rfl, ?_, rfl, rfl⟩
  simp [create_restock_order, Faults.none]

/-! ## C1, C3, C4: order placement and payment amounts -/

/-- When the drug is found and the stock suffices, `update_stock_after_order`
decrements the stock of every row with the found drug's id, commits, and
clears the drugs cache. -/
theorem update_stock_after_order_found (s : Conn) (nmStr : String) (qty : Int)
    (d : Drug)
    (hfind : s.pending.drugs.find? (fun x => x.name == nmStr) = some d)
    (hstock : qty ≤ d.stock_no) :
    update_stock_after_order s nmStr qty =
      ⟨(true, "Stock updated successfully."),
        Conn.commit { s with pending := { s.pending with
          drugs := s.pending.drugs.map (fun x =>
            if x.id = d.id then { x with stock_no := x.stock_no - qty } else x) } },
        [CacheKey.drugsC]⟩ := by
  simp [update_stock_after_order, hfind, not_lt.mpr hstock]

/-- Decrementing stock preserves drug names, so the price lookup of
`add_new_order` finds the image of the same first row. -/
theorem find_after_decrement (l : List Drug) (nmStr : String) (d : Drug)
    (qty : Int) (hfind : l.find? (fun x => x.name == nmStr) = some d) :
    (l.map (fun x =>
        if x.id = d.id then { x with stock_no := x.stock_no - qty } else x)).find?
      (fun x => x.name == nmStr) = some { d with stock_no := d.stock_no - qty } := by
  rw [List.find?_map]
  have hcomp : ((fun x : Drug => x.name == nmStr) ∘ (fun x : Drug =>
      if x.id = d.id then { x with stock_no := x.stock_no - qty } else x)) =
      (fun x : Drug => x.name == nmStr) := by
    funext x
    by_cases h : x.id = d.id <;> simp [h]
  rw [hcomp, hfind]
  simp

/-- The full success path of `add_new_order` on a quiescent connection with
no faults: result message, decremented stock, appended order row, appended
Pending payment of amount price * quantity, all committed. -/
theorem add_new_order_success_parts (db : DB) (pid : Nat) (nm items : String)
    (qty : Int) (pm date : String) (d : Drug)
    (hfind : db.drugs.find? (fun x => x.name == items) = some d)
    (hstock : qty ≤ d.stock_no) :
    (add_new_order (Conn.quiet db) Faults.none pid nm items qty pm date).res =
      (true, "Order added successfully with payment!") ∧
    (add_new_order (Conn.quiet db) Faults.none pid nm items qty pm date).conn.committed.drugs =
      db.drugs.map (fun x =>
        if x.id = d.id then { x with stock_no := x.stock_no - qty } else x) ∧
    (add_new_order (Conn.quiet db) Faults.none pid nm items qty pm date).conn.committed.orders =
      db.orders ++ [⟨db.nextOrderId, nm, items, qty, date⟩] ∧
    (add_new_order (Conn.quiet db) Faults.none pid nm items qty pm date).conn.committed.payments =
      db.payments ++ [⟨db.nextPaymentId, pid, 1, d.price * (qty : ℚ),
        fetch_payment_methods db pm, "Pending", Option.none,
        "Order ID: " ++ toString db.nextOrderId⟩] ∧
    (add_new_order (Conn.quiet db) Faults.none pid nm items qty pm date).conn.pending =
      (add_new_order (Conn.quiet db) Faults.none pid nm items qty pm date).conn.committed := by
  have h1 := update_stock_after_order_found (Conn.quiet db) items qty d hfind hstock
  have h2 := find_after_decrement db.drugs items d qty hfind
  refine ⟨?_, ?_, ?_, ?_, ?_⟩ <;>
  · simp only [add_new_order]
    rw [h1]
    simp [create_payment, Faults.none, Conn.commit, Conn.quiet, h2,
      fetch_payment_methods]

/-- C1: placing an order for an existing drug: when stock is at least the
quantity, the stock decreases by exactly the quantity, an order row is
created, and a Pending payment of amount price * quantity is created, all
committed; when stock is insufficient, the call fails and no order is
created (the store is unchanged). -/
theorem add_new_order_spec (db : DB) (pid : Nat) (nm items : String)
    (qty : Int) (pm date : String) (d : Drug)
    (hfind : db.drugs.find? (fun x => x.name == items) = some d) :
    (qty ≤ d.stock_no →
      (add_new_order (Conn.quiet db) Faults.none pid nm items qty pm date).res =
        (true, "Order added successfully with payment!") ∧
      (add_new_order (Conn.quiet db) Faults.none pid nm items qty pm date).conn.committed.drugs =
        db.drugs.map (fun x =>
          if x.id = d.id then { x with stock_no := x.stock_no - qty } else x) ∧
      (add_new_order (Conn.quiet db) Faults.none pid nm items qty pm date).conn.committed.orders =
        db.orders ++ [⟨db.nextOrderId, nm, items, qty, date⟩] ∧
      (add_new_order (Conn.quiet db) Faults.none pid nm items qty pm date).conn.committed.payments =
        db.payments ++ [⟨db.nextPaymentId, pid, 1, d.price * (qty : ℚ),
          fetch_payment_methods db pm, "Pending", Option.none,
          "Order ID: " ++ toString db.nextOrderId⟩]) ∧
    (d.stock_no < qty →
      (add_new_order (Conn.quiet db) Faults.none pid nm items qty pm date).res =
        (false, "Not enough stock available. Current stock: " ++
          toString d.stock_no) ∧
      (add_new_order (Conn.quiet db) Faults.none pid nm items qty pm date).conn =
        Conn.quiet db) := by
  constructor
  · intro hstock
    have h := add_new_order_success_parts db pid nm items qty pm date d hfind hstock
    exact ⟨h.1, h.2.1, h.2.2.1, h.2.2.2.1⟩
  · intro hlt
    constructor <;>
      simp [add_new_order, update_stock_after_order, hfind, hlt, Conn.quiet]

/-- Witness for C1: the spec's worked example on the sample store — drug
priced 10 with stock 150, quantity 5. -/
theorem add_new_order_spec_witness :
    ((5 : Int) ≤ (⟨1, "Paracetamol", 10, 150⟩ : Drug).stock_no →
      (add_new_order (Conn.quiet sampleDB) Faults.none 1 "ord1" "Paracetamol" 5 "COD" "2025-01-01").res =
        (true, "Order added successfully with payment!") ∧
      (add_new_order (Conn.quiet sampleDB) Faults.none 1 "ord1" "Paracetamol" 5 "COD" "2025-01-01").conn.committed.drugs =
        sampleDB.drugs.map (fun x =>
          if x.id = (⟨1, "Paracetamol", 10, 150⟩ : Drug).id then
            { x with stock_no := x.stock_no - 5 } else x) ∧
      (add_new_order (Conn.quiet sampleDB) Faults.none 1 "ord1" "Paracetamol" 5 "COD" "2025-01-01").conn.committed.orders =
        sampleDB.orders ++ [⟨sampleDB.nextOrderId, "ord1", "Paracetamol", 5, "2025-01-01"⟩] ∧
      (add_new_order (Conn.quiet sampleDB) Faults.none 1 "ord1" "Paracetamol" 5 "COD" "2025-01-01").conn.committed.payments =
        sampleDB.payments ++ [⟨sampleDB.nextPaymentId, 1, 1,
          (⟨1, "Paracetamol", 10, 150⟩ : Drug).price * ((5 : Int) : ℚ),
          fetch_payment_methods sampleDB "COD", "Pending", Option.none,
          "Order ID: " ++ toString sampleDB.nextOrderId⟩]) ∧
    ((⟨1, "Paracetamol", 10, 150⟩ : Drug).stock_no < 5 →
      (add_new_order (Conn.quiet sampleDB) Faults.none 1 "ord1" "Paracetamol" 5 "COD" "2025-01-01").res =
        (false, "Not enough stock available. Current stock: " ++
          toString (⟨1, "Paracetamol", 10, 150⟩ : Drug).stock_no) ∧
      (add_new_order (Conn.quiet sampleDB) Faults.none 1 "ord1" "Paracetamol" 5 "COD" "2025-01-01").conn =
        Conn.quiet sampleDB) :=
  add_new_order_spec sampleDB 1 "ord1" "Paracetamol" 5 "COD" "2025-01-01"
    ⟨1, "Paracetamol", 10, 150⟩ (by decide)

/-- A run in which the `INSERT INTO Orders` statement raises. -/
def orderInsertFault : Faults := ⟨true, false, false, false⟩

/-- C3 counterexample: on the sample store (drug priced 10 with stock 150),
an order for quantity 5 whose `Orders` insert raises returns a failure
result, yet the committed store has changed — the stock decrement to 145 is
already committed while no order row exists.  So on a store failure partial
state does remain. -/
theorem add_new_order_partial_state_cex :
    (add_new_order (Conn.quiet sampleDB) orderInsertFault 1 "ord1" "Paracetamol"
      5 "COD" "2025-01-01").res.1 = false ∧
    (add_new_order (Conn.quiet sampleDB) orderInsertFault 1 "ord1" "Paracetamol"
      5 "COD" "2025-01-01").conn.committed.drugs = [⟨1, "Paracetamol", 10, 145⟩] ∧
    (add_new_order (Conn.quiet sampleDB) orderInsertFault 1 "ord1" "Paracetamol"
      5 "COD" "2025-01-01").conn.committed.orders = [] ∧
    sampleDB.drugs = [⟨1, "Paracetamol", 10, 150⟩] ∧
    (add_new_order (Conn.quiet sampleDB) orderInsertFault 1 "ord1" "Paracetamol"
      5 "COD" "2025-01-01").conn.committed ≠ sampleDB := by
  refine ⟨rfl, by decide, rfl, rfl, by decide⟩

/-- C3 amended: order placement fails with the not-found result when the
drug is absent, with the insufficient-stock result when the quantity
exceeds the stock, and with a caught store-error result (success flag False
plus message) on a store failure — but in the last case partial state can
remain: the stock decrement is committed by `update_stock_after_order`
before the order and payment steps, so a failure after it leaves the stock
decreased with no committed order or payment. -/
theorem add_new_order_errors (db : DB) (f : Faults) (pid : Nat)
    (nm items : String) (qty : Int) (pm date : String) :
    (db.drugs.find? (fun x => x.name == items) = Option.none →
      (add_new_order (Conn.quiet db) f pid nm items qty pm date).res =
        (false, "Drug not found.") ∧
      (add_new_order (Conn.quiet db) f pid nm items qty pm date).conn =
        Conn.quiet db) ∧
    (∀ d : Drug, db.drugs.find? (fun x => x.name == items) = some d →
      d.stock_no < qty →
      (add_new_order (Conn.quiet db) f pid nm items qty pm date).res =
        (false, "Not enough stock available. Current stock: " ++
          toString d.stock_no) ∧
      (add_new_order (Conn.quiet db) f pid nm items qty pm date).conn =
        Conn.quiet db) ∧
    (∀ d : Drug, db.drugs.find? (fun x => x.name == items) = some d →
      qty ≤ d.stock_no →
      (f.orderInsertFails = true ∨ f.paymentInsertFails = true) →
      (add_new_order (Conn.quiet db) f pid nm items qty pm date).res.1 = false ∧
      (add_new_order (Conn.quiet db) f pid nm items qty pm date).conn.committed.drugs =
        db.drugs.map (fun x =>
          if x.id = d.id then { x with stock_no := x.stock_no - qty } else x) ∧
      (add_new_order (Conn.quiet db) f pid nm items qty pm date).conn.committed.orders =
        db.orders ∧
      (add_new_order (Conn.quiet db) f pid nm items qty pm date).conn.committed.payments =
        db.payments) := by
  refine ⟨?_, ?_, ?_⟩
  · intro hnone
    constructor <;>
      simp [add_new_order, update_stock_after_order, hnone, Conn.quiet]
  · intro d hfind hlt
    constructor <;>
      simp [add_new_order, update_stock_after_order, hfind, hlt, Conn.quiet]
  · intro d hfind hstock hfault
    have h1 := update_stock_after_order_found (Conn.quiet db) items qty d hfind hstock
    have h2 := find_after_decrement db.drugs items d qty hfind
    cases hof : f.orderInsertFails
    · have hpf : f.paymentInsertFails = true := by
        rcases hfault with h | h
        · rw [hof] at h
          exact absurd h (by simp)
        · exact h
      refine ⟨?_, ?_, ?_, ?_⟩ <;>
      · simp only [add_new_order]
        rw [h1]
        simp [hof, hpf, h2, create_payment, Conn.commit, Conn.quiet]
    · refine ⟨?_, ?_, ?_, ?_⟩ <;>
      · simp only [add_new_order]
        rw [h1]
        simp [hof, Conn.commit, Conn.quiet]

/-- C4: both payment-creating workflows compute the payment amount as the
drug's unit price times the ordered quantity: the payment appended by a
successful `add_new_order`, and the payment appended by the restock payment
step of the ticket form. -/
theorem payment_amount_price_times_qty (db : DB) (pid : Nat) (nm items : String)
    (qty : Int) (pm date : String) (d : Drug)
    (hfind : db.drugs.find? (fun x => x.name == items) = some d)
    (hstock : qty ≤ d.stock_no)
    (s2 : Conn) (ph2 sid did : Nat) (q2 : Int) (mid : Option Nat) (rid : Nat)
    (dn : String) (d2 : Drug)
    (hfind2 : s2.pending.drugs.find? (fun x => x.id == did) = some d2) :
    (∃ p : Payment,
      (add_new_order (Conn.quiet db) Faults.none pid nm items qty pm date).conn.committed.payments =
        db.payments ++ [p] ∧
      p.amount = d.price * (qty : ℚ) ∧ p.status = "Pending") ∧
    (∃ p : Payment,
      (restock_ticket_payment s2 ph2 sid did q2 mid rid dn).conn.committed.payments =
        s2.pending.payments ++ [p] ∧
      p.amount = d2.price * (q2 : ℚ) ∧ p.status = "Pending") := by
  constructor
  · have h := add_new_order_success_parts db pid nm items qty pm date d hfind hstock
    exact ⟨_, h.2.2.2.1, rfl, rfl⟩
  · refine ⟨⟨s2.pending.nextPaymentId, ph2, sid, d2.price * (q2 : ℚ), mid,
      "Pending", some ("Restock for " ++ dn), "Restock-" ++ toString rid⟩, ?_, rfl, rfl⟩
    simp [restock_ticket_payment, hfind2, create_restock_payment, Conn.commit]

/-- Witness for C4: the sample store on both paths — the order path at
price 10, quantity 5, and the restock path at drug 1, quantity 5. -/
theorem payment_amount_price_times_qty_witness :
    (∃ p : Payment,
      (add_new_order (Conn.quiet sampleDB) Faults.none 1 "ord1" "Paracetamol"
        5 "COD" "2025-01-01").conn.committed.payments =
          sampleDB.payments ++ [p] ∧
      p.amount = (⟨1, "Paracetamol", 10, 150⟩ : Drug).price * ((5 : Int) : ℚ) ∧
      p.status = "Pending") ∧
    (∃ p : Payment,
      (restock_ticket_payment (Conn.quiet sampleDB) 1 1 1 5 (some 1) 1
        "Paracetamol").conn.committed.payments =
          (Conn.quiet sampleDB).pending.payments ++ [p] ∧
      p.amount = (⟨1, "Paracetamol", 10, 150⟩ : Drug).price * ((5 : Int) : ℚ) ∧
      p.status = "Pending") :=
  payment_amount_price_times_qty sampleDB 1 "ord1" "Paracetamol" 5 "COD"
    "2025-01-01" ⟨1, "Paracetamol", 10, 150⟩ (by decide) (by decide)
    (Conn.quiet sampleDB) 1 1 1 5 (some 1) 1 "Paracetamol"
    ⟨1, "Paracetamol", 10, 150⟩ (by decide)

end MediTrack
